import Mathlib

/-!
# check_teamviewer: device lookup and state evaluation

A shallow embedding of `check_teamviewer.go`.

* Go `string` values are modelled by `String` (a sequence of Unicode code
  points, i.e. well-formed UTF-8); `[]Device` by `List Device`.
* A Go function that may stop with a run-time panic returns a `GoResult`.
* `encoding/json` is not part of the program: `json.Unmarshal` is a parameter
  of `ParseAPIResponse` and of `main`.
* `regexp.MatchString` belongs to the Go standard library. The namespace
  `regexp` computes it for a fragment of the RE2 syntax and for patterns of at
  most `regexp.modelledLength` runes; on every other pattern the answer of the
  library is a parameter (`regexp.Library`) of `TestHostname` and of `main`,
  about which nothing is assumed.
-/

namespace CheckTeamviewer

/-! ## Data model -/

/-- The `Device` struct of the program (one inventory record). -/
structure Device where
  RemoteControlID : String
  DeviceID : String
  Alias : String
  GroupID : String
  OnlineState : String
  AssignedTo : Bool
  TeamViewerID : Int
  deriving DecidableEq, Repr

/-- The `APIResponse` struct of the program. -/
structure APIResponse where
  Devices : List Device
  deriving DecidableEq, Repr

/-- A Go run-time panic. -/
inductive RuntimePanic where
  | indexOutOfRange (index length : Nat)
  deriving DecidableEq, Repr

/-- Result of running a Go function body: it returns a value or panics. -/
inductive GoResult (α : Type) where
  | ret (value : α)
  | panic (p : RuntimePanic)
  deriving DecidableEq, Repr

/-- A Go `error` value, represented by its message (`none` is `nil`). -/
abbrev GoError := Option String

/-- Substring containment on strings, as `strings.Contains s sub`. -/
def Contains (s sub : String) : Prop := sub.data <:+: s.data

instance (s sub : String) : Decidable (Contains s sub) := by
  unfold Contains; infer_instance

/-! ## A model of `regexp.MatchString` -/

namespace regexp

/-- Parsed regular expression (`syntax.Regexp`), with binary `Concat` and
`Alternate` nodes. A character class holds inclusive code-point ranges. -/
inductive Regexp where
  | NoMatch
  | EmptyMatch
  | Literal (r : Char)
  | CharClass (ranges : List (Nat × Nat))
  | AnyCharNotNL
  | Capture (sub : Regexp)
  | Star (sub : Regexp)
  | Plus (sub : Regexp)
  | Quest (sub : Regexp)
  | Concat (a b : Regexp)
  | Alternate (a b : Regexp)
  deriving DecidableEq, Repr

/-- Error codes of `regexp/syntax`. `NotModelled` is not a Go error: the
parser of this model answers it for a pattern outside the modelled fragment,
and `MatchString` then hands the pattern to the library parameter. -/
inductive ErrorCode where
  | ErrInternalError
  | ErrInvalidCharClass
  | ErrInvalidCharRange
  | ErrInvalidEscape
  | ErrInvalidNamedCapture
  | ErrInvalidPerlOp
  | ErrInvalidRepeatOp
  | ErrInvalidRepeatSize
  | ErrInvalidUTF8
  | ErrMissingBracket
  | ErrMissingParen
  | ErrMissingRepeatArgument
  | ErrTrailingBackslash
  | ErrUnexpectedParen
  | ErrNestingDepth
  | ErrLarge
  | NotModelled
  deriving DecidableEq, Repr

/-- What `regexp.MatchString` of the Go library answers, as a function of the
pattern and the text: the parameter consulted outside the modelled fragment. -/
abbrev Library := String → String → Bool × Option ErrorCode

/-- Patterns longer than this many runes are left to the library parameter:
the package bounds the nesting depth (1000) and the size of an expression,
and no pattern this short can reach either bound. -/
def modelledLength : Nat := 1000

/-- Largest Unicode code point (`unicode.MaxRune`). -/
def MaxRune : Nat := 0x10FFFF

/-- Membership of a rune in a list of inclusive ranges. -/
def inRanges (ranges : List (Nat × Nat)) (c : Char) : Bool :=
  ranges.any fun lohi => decide (lohi.1 ≤ c.toNat) && decide (c.toNat ≤ lohi.2)

/-- The Perl class `\d`, that is `[0-9]`. -/
def perlDigit : List (Nat × Nat) := [(0x30, 0x39)]
/-- The Perl class `\D`. -/
def perlNotDigit : List (Nat × Nat) := [(0, 0x2F), (0x3A, MaxRune)]
/-- The Perl class `\s`, that is `[\t\n\f\r ]`. -/
def perlSpace : List (Nat × Nat) := [(0x09, 0x0A), (0x0C, 0x0D), (0x20, 0x20)]
/-- The Perl class `\S`. -/
def perlNotSpace : List (Nat × Nat) :=
  [(0, 0x08), (0x0B, 0x0B), (0x0E, 0x1F), (0x21, MaxRune)]
/-- The Perl class `\w`, that is `[0-9A-Za-z_]`. -/
def perlWord : List (Nat × Nat) := [(0x30, 0x39), (0x41, 0x5A), (0x5F, 0x5F), (0x61, 0x7A)]
/-- The Perl class `\W`. -/
def perlNotWord : List (Nat × Nat) :=
  [(0, 0x2F), (0x3A, 0x40), (0x5B, 0x5E), (0x60, 0x60), (0x7B, MaxRune)]

/-- The `isalnum` test of `regexp/syntax`: an ASCII letter or digit. -/
def isalnum (c : Char) : Bool :=
  (decide ('0'.toNat ≤ c.toNat) && decide (c.toNat ≤ '9'.toNat)) ||
  (decide ('A'.toNat ≤ c.toNat) && decide (c.toNat ≤ 'Z'.toNat)) ||
  (decide ('a'.toNat ≤ c.toNat) && decide (c.toNat ≤ 'z'.toNat))

/-- One open group of the parser: the alternatives completed so far and the
concatenation being read, both most recent first. `capture` tells `(` from
`(?:`. -/
structure Frame where
  capture : Bool
  alts : List Regexp
  seq : List Regexp
  deriving DecidableEq, Repr

/-- What the parser has just read, for the constructs that span two or three
characters. -/
inductive Mode where
  | normal
  | escape
  | afterRepeat
  | afterLazy
  | afterParen
  | afterParenQuestion
  deriving DecidableEq, Repr

/-- Parser state: the enclosing open groups, the innermost one, and the mode. -/
structure Parser where
  stack : List Frame
  cur : Frame
  mode : Mode
  deriving DecidableEq, Repr

/-- Concatenation of a sequence given most recent first (`parser.concat`);
the empty sequence is the empty match. -/
def concatRev : List Regexp → Regexp
  | [] => .EmptyMatch
  | last :: before => before.foldl (fun acc re => .Concat re acc) last

/-- Alternation of alternatives given most recent first (`parser.alternate`). -/
def alternateRev (last : Regexp) (before : List Regexp) : Regexp :=
  before.foldl (fun acc re => .Alternate re acc) last

/-- The expression denoted by a group once it is complete. -/
def Frame.collapse (f : Frame) : Regexp :=
  alternateRev (concatRev f.seq) f.alts

/-- Push an operand on the innermost group (`parser.push`). -/
def Parser.push (p : Parser) (re : Regexp) : Parser :=
  { p with cur := { p.cur with seq := re :: p.cur.seq }, mode := .normal }

/-- Apply a repetition operator to the last operand (`parser.repeat`). -/
def Parser.repeat (p : Parser) (op : Regexp → Regexp) : Except ErrorCode Parser :=
  match p.mode with
  | .afterRepeat => .error .ErrInvalidRepeatOp
  | .afterLazy => .error .ErrInvalidRepeatOp
  | _ =>
    match p.cur.seq with
    | [] => .error .ErrMissingRepeatArgument
    | sub :: before =>
      .ok { p with cur := { p.cur with seq := op sub :: before }, mode := .afterRepeat }

/-- Close the innermost group on `)` (`parser.parseRightParen`). -/
def Parser.parseRightParen (p : Parser) : Except ErrorCode Parser :=
  match p.stack with
  | [] => .error .ErrUnexpectedParen
  | outer :: stack =>
    let re := if p.cur.capture then Regexp.Capture p.cur.collapse else p.cur.collapse
    .ok { stack := stack, cur := { outer with seq := re :: outer.seq }, mode := .normal }

/-- The character after a backslash (`parser.parseEscape` and the Perl class
escapes): the six Perl classes, the six C escapes and escaped ASCII
punctuation are modelled; every other escape is left to the library. -/
def Parser.parseEscape (p : Parser) (c : Char) : Except ErrorCode Parser :=
  if c = 'd' then .ok (p.push (.CharClass perlDigit))
  else if c = 'D' then .ok (p.push (.CharClass perlNotDigit))
  else if c = 's' then .ok (p.push (.CharClass perlSpace))
  else if c = 'S' then .ok (p.push (.CharClass perlNotSpace))
  else if c = 'w' then .ok (p.push (.CharClass perlWord))
  else if c = 'W' then .ok (p.push (.CharClass perlNotWord))
  else if c = 'a' then .ok (p.push (.Literal (Char.ofNat 7)))
  else if c = 'f' then .ok (p.push (.Literal (Char.ofNat 12)))
  else if c = 'n' then .ok (p.push (.Literal '\n'))
  else if c = 'r' then .ok (p.push (.Literal '\r'))
  else if c = 't' then .ok (p.push (.Literal '\t'))
  else if c = 'v' then .ok (p.push (.Literal (Char.ofNat 11)))
  else if decide (c.toNat < 0x80) && !isalnum c then .ok (p.push (.Literal c))
  else .error .NotModelled

/-- The character after `(?` (`parser.parsePerlFlags`): `(?:` opens a
non-capturing group; flag settings and named groups are left to the library. -/
def Parser.parsePerlFlags (p : Parser) (c : Char) : Except ErrorCode Parser :=
  if c = ':' then .ok { p with cur := { p.cur with capture := false }, mode := .normal }
  else .error .NotModelled

/-- One iteration of the loop of `syntax.Parse` (flags `syntax.Perl`), on the
next rune of the pattern. -/
def Parser.step (p : Parser) (c : Char) : Except ErrorCode Parser :=
  match p.mode with
  | .escape => p.parseEscape c
  | .afterParenQuestion => p.parsePerlFlags c
  | mode =>
    if c = '(' then
      .ok { stack := p.cur :: p.stack, cur := ⟨true, [], []⟩, mode := .afterParen }
    else if c = '|' then
      .ok { p with cur := { p.cur with alts := concatRev p.cur.seq :: p.cur.alts, seq := [] },
                   mode := .normal }
    else if c = ')' then p.parseRightParen
    else if c = '^' ∨ c = '$' ∨ c = '[' ∨ c = '{' then .error .NotModelled
    else if c = '.' then .ok (p.push .AnyCharNotNL)
    else if c = '\\' then .ok { p with mode := .escape }
    else if c = '*' then p.repeat .Star
    else if c = '+' then p.repeat .Plus
    else if c = '?' then
      match mode with
      | .afterParen => .ok { p with mode := .afterParenQuestion }
      | .afterRepeat => .ok { p with mode := .afterLazy }
      | _ => p.repeat .Quest
    else .ok (p.push (.Literal c))

/-- Run the parser loop over the runes of a pattern. -/
def Parser.run (p : Parser) : List Char → Except ErrorCode Parser
  | [] => .ok p
  | c :: t =>
    match p.step c with
    | .error e => .error e
    | .ok q => q.run t

/-- End of the pattern: every group must be closed (`syntax.Parse`, after
its loop). -/
def Parser.finish (p : Parser) : Except ErrorCode Regexp :=
  match p.mode with
  | .escape => .error .ErrTrailingBackslash
  | .afterParenQuestion => .error .NotModelled
  | _ =>
    match p.stack with
    | [] => .ok p.cur.collapse
    | _ :: _ => .error .ErrMissingParen

/-- Model of `regexp.Compile` for patterns of at most `modelledLength` runes in
the fragment of the RE2 syntax made of literals, `.`, `|`, `(...)`, `(?:...)`,
the operators `*`, `+`, `?` (also non-greedy), the classes `\d \D \s \S \w \W`,
the escapes `\a \f \n \r \t \v` and escaped ASCII punctuation. Every other
pattern gets `NotModelled`: a longer one, or one using `^`, `$`, `[`, `{`, a
group opening `(?` other than `(?:`, or another escape. -/
def Compile (expr : String) : Except ErrorCode Regexp :=
  if expr.length > modelledLength then .error .NotModelled
  else
    match (Parser.mk [] ⟨false, [], []⟩ .normal).run expr.data with
    | .error e => .error e
    | .ok p => p.finish

/-- Whether a pattern lies in the modelled fragment, where the library
parameter is not consulted. -/
def modelled (expr : String) : Bool :=
  match Compile expr with
  | .error .NotModelled => false
  | _ => true

/-- Whether the expression matches the empty string. -/
def Regexp.nullable : Regexp → Bool
  | .NoMatch => false
  | .EmptyMatch => true
  | .Literal _ => false
  | .CharClass _ => false
  | .AnyCharNotNL => false
  | .Capture sub => sub.nullable
  | .Star _ => true
  | .Plus sub => sub.nullable
  | .Quest _ => true
  | .Concat a b => a.nullable && b.nullable
  | .Alternate a b => a.nullable || b.nullable

/-- What remains to be matched after reading the rune `c`. -/
def Regexp.deriv : Regexp → Char → Regexp
  | .NoMatch, _ => .NoMatch
  | .EmptyMatch, _ => .NoMatch
  | .Literal r, c => if c = r then .EmptyMatch else .NoMatch
  | .CharClass ranges, c => if inRanges ranges c then .EmptyMatch else .NoMatch
  | .AnyCharNotNL, c => if c = '\n' then .NoMatch else .EmptyMatch
  | .Capture sub, c => sub.deriv c
  | .Star sub, c => .Concat (sub.deriv c) (.Star sub)
  | .Plus sub, c => .Concat (sub.deriv c) (.Star sub)
  | .Quest sub, c => sub.deriv c
  | .Concat a b, c =>
    if a.nullable then .Alternate (.Concat (a.deriv c) b) (b.deriv c)
    else .Concat (a.deriv c) b
  | .Alternate a b, c => .Alternate (a.deriv c) (b.deriv c)

/-- Whether some prefix of the text matches. -/
def Regexp.matchHere (re : Regexp) : List Char → Bool
  | [] => re.nullable
  | c :: t => re.nullable || (re.deriv c).matchHere t

/-- Whether some substring of the text matches (an unanchored search). -/
def Regexp.search (re : Regexp) : List Char → Bool
  | [] => re.nullable
  | c :: t => re.matchHere (c :: t) || re.search t

/-- Model of `(*Regexp).MatchString`: the text contains a match. -/
def Regexp.MatchString (re : Regexp) (s : String) : Bool :=
  re.search s.data

/-- Model of `regexp.MatchString`: compile the pattern, report a compile
error with `matched = false`, otherwise search the text. A pattern outside
the modelled fragment gets the answer of the library parameter. -/
def MatchString (library : Library) (pattern s : String) : Bool × Option ErrorCode :=
  match Compile pattern with
  | .error .NotModelled => library pattern s
  | .error err => (false, some err)
  | .ok re => (re.MatchString s, none)

end regexp

/-! ## The program -/

/-- The error built by `errors.New("Device not found")`. -/
def errDeviceNotFound : GoError := some "Device not found"

/-- `ParseAPIResponse`: on a decoding error the device list is `nil`. -/
def ParseAPIResponse (unmarshal : String → Except String APIResponse)
    (responseJSON : String) : List Device × GoError :=
  match unmarshal responseJSON with
  | .error err => ([], some err)
  | .ok apiResponse => (apiResponse.Devices, none)

/-- The `for ... range devices` loop of `FindDeviceWithPropertyValue`: the
device on which the loop returns, if any. -/
def findLoop (propertyValue : String) (TestFunc : Device → String → Bool) :
    List Device → Option Device
  | [] => none
  | device :: rest =>
    if TestFunc device propertyValue then some device
    else findLoop propertyValue TestFunc rest

/-- `FindDeviceWithPropertyValue`: the first device passing the test, with a
`nil` error; otherwise `devices[0]` with the error, which panics on an empty
slice. -/
def FindDeviceWithPropertyValue (devices : List Device) (propertyValue : String)
    (TestFunc : Device → String → Bool) : GoResult (Device × GoError) :=
  match findLoop propertyValue TestFunc devices with
  | some device => .ret (device, none)
  | none =>
    match devices with
    | [] => .panic (.indexOutOfRange 0 0)
    | first :: _ => .ret (first, errDeviceNotFound)

/-- `TestID`. -/
def TestID (device : Device) (id : String) : Bool :=
  decide (("r" ++ id) = device.RemoteControlID)

/-- `TestHostname`: the error of `regexp.MatchString` is discarded. -/
def TestHostname (library : regexp.Library) (device : Device) (hostname : String) : Bool :=
  (regexp.MatchString library ("\\d+_" ++ hostname) device.Alias).1

/-- How a run of the program ends: `os.Exit(code)` after writing `stdout`,
or a run-time panic. -/
inductive Outcome where
  | exit (code : Nat) (stdout : String)
  | panic (p : RuntimePanic)
  deriving DecidableEq, Repr

/-- Result of the HTTP exchange of `main` (`client.Do`, then `ioutil.ReadAll`). -/
inductive Fetch where
  | doFailed (err : String)
  | readFailed (err : String)
  | body (b : String)
  deriving DecidableEq, Repr

/-- The assignment of the globals `stateCode` and `stateText` in `main`. -/
def stateOf (currentDevice : Device) : Nat × String :=
  if currentDevice.OnlineState = "Online" then (0, "OK") else (2, "CRITICAL")

/-- The status line `main` prints for the device it found. -/
def statusLine (stateText : String) (currentDevice : Device) : String :=
  stateText ++ " - TeamViewer " ++ currentDevice.OnlineState ++ ": " ++
    currentDevice.Alias ++ "\n"

/-- The end of `main`, from the state test on: print the status line and
exit with the state code. -/
def evaluate (currentDevice : Device) : Outcome :=
  .exit (stateOf currentDevice).1 (statusLine (stateOf currentDevice).2 currentDevice)

/-- `main`, from the parsed flags and the result of the HTTP exchange
(`http.NewRequest` cannot fail on the constant method and URL). Only the
standard output is recorded. -/
def main (library : regexp.Library) (unmarshal : String → Except String APIResponse)
    (apiKey host teamviewerid : String) (response : Fetch) : Outcome :=
  if apiKey = "" ∨ (host = "" ∧ teamviewerid = "") then
    .exit 1 "Please provide the TeamViewer API key and host to test or teamviewer id\n"
  else
    match response with
    | .doFailed err =>
      .exit 2 ("CRITICAL - Failed to connect to TeamViewer API: " ++ err ++ "\n")
    | .readFailed err =>
      .exit 2 ("CRITICAL - Failed to read TeamViewer API response: " ++ err ++ "\n")
    | .body body =>
      let devices := (ParseAPIResponse unmarshal body).1
      let found :=
        if host ≠ "" then FindDeviceWithPropertyValue devices host (TestHostname library)
        else FindDeviceWithPropertyValue devices teamviewerid TestID
      match found with
      | .panic p => .panic p
      | .ret (currentDevice, err) =>
        if err ≠ none then .exit 2 ("CRITICAL - Device not found: " ++ host ++ "\n")
        else evaluate currentDevice

/-! ## The matching relation and the text of the hostname criterion -/

namespace regexp

/-- The strings an expression matches as a whole. -/
inductive Matches : Regexp → List Char → Prop
  | emptyMatch : Matches .EmptyMatch []
  | literal (r : Char) : Matches (.Literal r) [r]
  | charClass (ranges : List (Nat × Nat)) (c : Char) (h : inRanges ranges c = true) :
      Matches (.CharClass ranges) [c]
  | anyCharNotNL (c : Char) (h : c ≠ '\n') : Matches .AnyCharNotNL [c]
  | capture {sub : Regexp} {w : List Char} : Matches sub w → Matches (.Capture sub) w
  | starNil {sub : Regexp} : Matches (.Star sub) []
  | starCons {sub : Regexp} {u v : List Char} :
      Matches sub u → Matches (.Star sub) v → Matches (.Star sub) (u ++ v)
  | plus {sub : Regexp} {u v : List Char} :
      Matches sub u → Matches (.Star sub) v → Matches (.Plus sub) (u ++ v)
  | questNone {sub : Regexp} : Matches (.Quest sub) []
  | questSome {sub : Regexp} {w : List Char} : Matches sub w → Matches (.Quest sub) w
  | concat {a b : Regexp} {u v : List Char} :
      Matches a u → Matches b v → Matches (.Concat a b) (u ++ v)
  | altLeft {a b : Regexp} {w : List Char} : Matches a w → Matches (.Alternate a b) w
  | altRight {a b : Regexp} {w : List Char} : Matches b w → Matches (.Alternate a b) w

/-- The strings matched by a sequence of expressions one after the other. -/
def MatchesSeq : List Regexp → List Char → Prop
  | [], w => w = []
  | re :: rest, w => ∃ u v, w = u ++ v ∧ Matches re u ∧ MatchesSeq rest v

end regexp

/-- A device record with the three fields the program reads; the other
fields hold their zero values. -/
def deviceOf (remoteControlID aliasName onlineState : String) : Device :=
  ⟨remoteControlID, "", aliasName, "", onlineState, false, 0⟩

namespace regexp

theorem matches_literal_iff (r : Char) (w : List Char) : Matches (.Literal r) w ↔ w = [r] := by
  constructor
  · intro h; cases h; rfl
  · rintro rfl; exact .literal r

theorem matchesSeq_literals (cs : List Char) :
    ∀ w, MatchesSeq (cs.map .Literal) w ↔ w = cs := by
  induction cs with
  | nil => intro w; simp [MatchesSeq]
  | cons c cs ih =>
    intro w
    simp only [List.map_cons, MatchesSeq, ih, matches_literal_iff]
    constructor
    · rintro ⟨u, v, rfl, rfl, rfl⟩; rfl
    · rintro rfl; exact ⟨[c], cs, rfl, rfl, rfl⟩

end regexp

open regexp

theorem matchString_of_modelled (l1 l2 : Library) (pattern text : String)
    (h : modelled pattern = true) :
    regexp.MatchString l1 pattern text = regexp.MatchString l2 pattern text := by
  unfold regexp.MatchString
  unfold modelled at h
  cases hc : Compile pattern with
  | ok re => rfl
  | error e =>
    rw [hc] at h
    cases e <;> first | rfl | exact absurd h (by simp)

theorem findLoop_some (propertyValue : String) (TestFunc : Device → String → Bool)
    (devices : List Device) (h : ∃ d ∈ devices, TestFunc d propertyValue = true) :
    ∃ pre d post, devices = pre ++ d :: post ∧
      (∀ x ∈ pre, TestFunc x propertyValue = false) ∧ TestFunc d propertyValue = true ∧
      findLoop propertyValue TestFunc devices = some d := by
  induction devices with
  | nil => simp at h
  | cons a rest ih =>
    by_cases ha : TestFunc a propertyValue = true
    · exact ⟨[], a, rest, rfl, by simp, ha, by simp [findLoop, ha]⟩
    · have hrest : ∃ d ∈ rest, TestFunc d propertyValue = true := by
        obtain ⟨d, hd, hdt⟩ := h
        rcases List.mem_cons.mp hd with rfl | hd
        · exact absurd hdt ha
        · exact ⟨d, hd, hdt⟩
      obtain ⟨pre, d, post, hsplit, hpre, hd, hloop⟩ := ih hrest
      refine ⟨a :: pre, d, post, by simp [hsplit], ?_, hd, by simp [findLoop, ha, hloop]⟩
      intro x hx
      rcases List.mem_cons.mp hx with rfl | hx
      · simpa using ha
      · exact hpre x hx

theorem findLoop_none (propertyValue : String) (TestFunc : Device → String → Bool)
    (devices : List Device) :
    findLoop propertyValue TestFunc devices = none ↔
      ∀ d ∈ devices, TestFunc d propertyValue = false := by
  induction devices with
  | nil => simp [findLoop]
  | cons a rest ih =>
    by_cases ha : TestFunc a propertyValue = true
    · simp [findLoop, ha]
    · simp [findLoop, ha, ih]

theorem find_of_no_match (devices : List Device) (propertyValue : String)
    (TestFunc : Device → String → Bool) (hne : devices ≠ [])
    (hno : ∀ d ∈ devices, TestFunc d propertyValue = false) :
    ∃ d, FindDeviceWithPropertyValue devices propertyValue TestFunc =
      .ret (d, errDeviceNotFound) := by
  have hloop := (findLoop_none propertyValue TestFunc devices).mpr hno
  cases devices with
  | nil => exact absurd rfl hne
  | cons first rest => exact ⟨first, by simp [FindDeviceWithPropertyValue, hloop]⟩

/-! ## The device matcher -/

/-- C1 (where the code departs from the claim): on an empty device sequence
`FindDeviceWithPropertyValue` does not return the not-found error; for every
criterion value and every test it stops with the run-time panic of `devices[0]`,
index out of range. -/
theorem find_empty_panics (propertyValue : String) (TestFunc : Device → String → Bool) :
    FindDeviceWithPropertyValue [] propertyValue TestFunc = .panic (.indexOutOfRange 0 0) := by
  rfl

/-- C2: when some device passes the test, `FindDeviceWithPropertyValue` returns
with a nil error the first such device of the input: the input splits as
`pre ++ d :: post` where no device of `pre` passes the test, `d` passes it, and
`d` is the returned value. Being a function of its input, the result is the same
on every call. -/
theorem find_returns_first_match (devices : List Device) (propertyValue : String)
    (TestFunc : Device → String → Bool)
    (h : ∃ d ∈ devices, TestFunc d propertyValue = true) :
    ∃ pre d post, devices = pre ++ d :: post ∧
      (∀ x ∈ pre, TestFunc x propertyValue = false) ∧ TestFunc d propertyValue = true ∧
      FindDeviceWithPropertyValue devices propertyValue TestFunc = .ret (d, none) := by
  obtain ⟨pre, d, post, hsplit, hpre, hd, hloop⟩ :=
    findLoop_some propertyValue TestFunc devices h
  exact ⟨pre, d, post, hsplit, hpre, hd, by simp [FindDeviceWithPropertyValue, hloop]⟩

theorem find_returns_first_match_witness :
    (∃ d ∈ [deviceOf "r7" "1_a" "Offline", deviceOf "r100" "2_b" "Online",
        deviceOf "r100" "3_c" "Offline"], TestID d "100" = true) ∧
    ∃ pre d post,
      [deviceOf "r7" "1_a" "Offline", deviceOf "r100" "2_b" "Online",
        deviceOf "r100" "3_c" "Offline"] = pre ++ d :: post ∧
      (∀ x ∈ pre, TestID x "100" = false) ∧ TestID d "100" = true ∧
      FindDeviceWithPropertyValue [deviceOf "r7" "1_a" "Offline", deviceOf "r100" "2_b" "Online",
        deviceOf "r100" "3_c" "Offline"] "100" TestID = .ret (d, none) :=
  ⟨by decide, find_returns_first_match _ "100" TestID (by decide)⟩

/-- C6: on a non-empty device sequence in which no device passes the test,
`FindDeviceWithPropertyValue` returns the error "Device not found"; and whenever
it returns a nil error, some device of the sequence passes the test. -/
theorem find_not_found (devices : List Device) (propertyValue : String)
    (TestFunc : Device → String → Bool) (hne : devices ≠ []) :
    ((∀ d ∈ devices, TestFunc d propertyValue = false) →
      ∃ d, FindDeviceWithPropertyValue devices propertyValue TestFunc =
        .ret (d, errDeviceNotFound)) ∧
    (∀ d, FindDeviceWithPropertyValue devices propertyValue TestFunc = .ret (d, none) →
      ∃ x ∈ devices, TestFunc x propertyValue = true) := by
  constructor
  · exact find_of_no_match devices propertyValue TestFunc hne
  · intro d hret
    by_contra hnone
    have hno : ∀ x ∈ devices, TestFunc x propertyValue = false := by
      intro x hx
      by_contra hx2
      exact hnone ⟨x, hx, by simpa using hx2⟩
    have hloop := (findLoop_none propertyValue TestFunc devices).mpr hno
    cases devices with
    | nil => exact absurd rfl hne
    | cons first rest =>
      simp [FindDeviceWithPropertyValue, hloop, errDeviceNotFound] at hret

theorem find_not_found_witness :
    [deviceOf "r100" "5_host1" "Online", deviceOf "r200" "6_host2" "Online"] ≠ [] ∧
    (((∀ d ∈ [deviceOf "r100" "5_host1" "Online", deviceOf "r200" "6_host2" "Online"],
        TestID d "999" = false) →
      ∃ d, FindDeviceWithPropertyValue
        [deviceOf "r100" "5_host1" "Online", deviceOf "r200" "6_host2" "Online"] "999" TestID =
        .ret (d, errDeviceNotFound)) ∧
    (∀ d, FindDeviceWithPropertyValue
        [deviceOf "r100" "5_host1" "Online", deviceOf "r200" "6_host2" "Online"] "999" TestID =
        .ret (d, none) →
      ∃ x ∈ [deviceOf "r100" "5_host1" "Online", deviceOf "r200" "6_host2" "Online"],
        TestID x "999" = true)) :=
  ⟨by decide, find_not_found _ "999" TestID (by decide)⟩

/-- C4: `TestID device id` holds exactly when `device.RemoteControlID` is the
string "r" followed by `id`; for the identifier "123" it holds exactly for the
devices whose `RemoteControlID` is "r123". -/
theorem testID_iff (device : Device) (id : String) :
    (TestID device id = true ↔ device.RemoteControlID = "r" ++ id) ∧
    (TestID device "123" = true ↔ device.RemoteControlID = "r123") := by
  constructor
  · simp [TestID, eq_comm]
  · simp only [TestID, decide_eq_true_eq]
    exact eq_comm

/-- C9: with the hostname "myhost", `TestHostname` accepts every device whose
alias is "12345_myhost", rejects every device whose alias is "12345_otherhost"
and accepts every device whose alias is "12345_myhost2", whatever the other
fields of the device are. -/
theorem testHostname_examples (library : regexp.Library) (d1 d2 d3 : Device)
    (h1 : d1.Alias = "12345_myhost") (h2 : d2.Alias = "12345_otherhost")
    (h3 : d3.Alias = "12345_myhost2") :
    TestHostname library d1 "myhost" = true ∧
    TestHostname library d2 "myhost" = false ∧
    TestHostname library d3 "myhost" = true := by
  have hc : modelled ("\\d+_" ++ "myhost") = true := by decide
  unfold TestHostname
  rw [h1, h2, h3,
    matchString_of_modelled library (fun _ _ => (false, none)) _ "12345_myhost" hc,
    matchString_of_modelled library (fun _ _ => (false, none)) _ "12345_otherhost" hc,
    matchString_of_modelled library (fun _ _ => (false, none)) _ "12345_myhost2" hc]
  decide

theorem testHostname_examples_witness :
    (deviceOf "r1" "12345_myhost" "Online").Alias = "12345_myhost" ∧
    (deviceOf "" "12345_otherhost" "Offline").Alias = "12345_otherhost" ∧
    (deviceOf "r3" "12345_myhost2" "").Alias = "12345_myhost2" ∧
    TestHostname (fun _ _ => (true, none)) (deviceOf "r1" "12345_myhost" "Online") "myhost" =
      true ∧
    TestHostname (fun _ _ => (true, none)) (deviceOf "" "12345_otherhost" "Offline") "myhost" =
      false ∧
    TestHostname (fun _ _ => (true, none)) (deviceOf "r3" "12345_myhost2" "") "myhost" = true :=
  ⟨rfl, rfl, rfl,
    testHostname_examples (fun _ _ => (true, none)) (deviceOf "r1" "12345_myhost" "Online")
      (deviceOf "" "12345_otherhost" "Offline") (deviceOf "r3" "12345_myhost2" "") rfl rfl rfl⟩

/-- C5: the evaluation step exits with code 0 and the state text "OK" exactly
when `OnlineState` is the string "Online", and with code 2 and the state text
"CRITICAL" for every other value, in particular for "Offline", the empty string
and "online". -/
theorem stateOf_ok_iff (device : Device) :
    ((stateOf device).2 = "OK" ↔ device.OnlineState = "Online") ∧
    ((stateOf device).2 = "CRITICAL" ↔ device.OnlineState ≠ "Online") ∧
    ((stateOf device).1 = 0 ↔ device.OnlineState = "Online") ∧
    ((stateOf device).1 = 2 ↔ device.OnlineState ≠ "Online") ∧
    (∀ state ∈ ["Offline", "", "online"],
      evaluate { device with OnlineState := state } =
        .exit 2 (statusLine "CRITICAL" { device with OnlineState := state })) ∧
    evaluate device =
      (if device.OnlineState = "Online" then .exit 0 (statusLine "OK" device)
       else .exit 2 (statusLine "CRITICAL" device)) ∧
    (evaluate device = .exit 0 (statusLine "OK" device) ↔ device.OnlineState = "Online") ∧
    (evaluate device = .exit 2 (statusLine "CRITICAL" device) ↔
      device.OnlineState ≠ "Online") ∧
    ((∃ line, evaluate device = .exit 0 line) ↔ device.OnlineState = "Online") := by
  refine ⟨?_, ?_, ?_, ?_, ?_, ?_, ?_, ?_, ?_⟩
  · by_cases h : device.OnlineState = "Online" <;> simp [stateOf, h]
  · by_cases h : device.OnlineState = "Online" <;> simp [stateOf, h]
  · by_cases h : device.OnlineState = "Online" <;> simp [stateOf, h]
  · by_cases h : device.OnlineState = "Online" <;> simp [stateOf, h]
  · intro state hstate
    have hne : state ≠ "Online" := by
      intro heq
      subst heq
      revert hstate
      decide
    simp [evaluate, stateOf, hne]
  · by_cases h : device.OnlineState = "Online" <;> simp [evaluate, stateOf, h]
  · by_cases h : device.OnlineState = "Online" <;> simp [evaluate, stateOf, h]
  · by_cases h : device.OnlineState = "Online" <;> simp [evaluate, stateOf, h]
  · by_cases h : device.OnlineState = "Online" <;> simp [evaluate, stateOf, h]

/-- C10: the status line of the evaluation step contains the state text, which
is "OK" or "CRITICAL" as decided from `OnlineState`, the raw `OnlineState` and the
`Alias`; for the device r100 / "5_host1" / "Online" the program exits with code 0
and the line "OK - TeamViewer Online: 5_host1". -/
theorem statusLine_contains (device : Device) :
    evaluate device = .exit (stateOf device).1 (statusLine (stateOf device).2 device) ∧
    stateOf device = (if device.OnlineState = "Online" then (0, "OK") else (2, "CRITICAL")) ∧
    Contains (statusLine (stateOf device).2 device) (stateOf device).2 ∧
    Contains (statusLine (stateOf device).2 device) device.OnlineState ∧
    Contains (statusLine (stateOf device).2 device) device.Alias ∧
    evaluate (deviceOf "r100" "5_host1" "Online") =
      .exit 0 "OK - TeamViewer Online: 5_host1\n" ∧
    Contains "OK - TeamViewer Online: 5_host1\n" "Online" ∧
    Contains "OK - TeamViewer Online: 5_host1\n" "5_host1" := by
  refine ⟨rfl, rfl, ?_, ?_, ?_, by decide, by decide, by decide⟩
  · exact ⟨[], (" - TeamViewer " ++ device.OnlineState ++ ": " ++ device.Alias ++ "\n").data,
      by simp [statusLine, String.data_append]⟩
  · exact ⟨((stateOf device).2 ++ " - TeamViewer ").data, (": " ++ device.Alias ++ "\n").data,
      by simp [statusLine, String.data_append]⟩
  · exact ⟨((stateOf device).2 ++ " - TeamViewer " ++ device.OnlineState ++ ": ").data,
      "\n".data, by simp [statusLine, String.data_append]⟩

/-! ## The pipeline of `main` -/

/-- C7 (where the code departs from the claim): `main` does not test the error of
`ParseAPIResponse`. When decoding fails it searches the nil device list, and
the run ends with the index-out-of-range panic of `devices[0]`, for a search by
hostname and for a search by identifier alike. -/
theorem main_decode_error_panics (library : regexp.Library)
    (unmarshal : String → Except String APIResponse)
    (apiKey host teamviewerid body err : String) (hkey : apiKey ≠ "")
    (hcrit : host ≠ "" ∨ teamviewerid ≠ "") (hdec : unmarshal body = .error err) :
    ParseAPIResponse unmarshal body = ([], some err) ∧
    main library unmarshal apiKey host teamviewerid (.body body) =
      .panic (.indexOutOfRange 0 0) := by
  have hparse : ParseAPIResponse unmarshal body = ([], some err) := by
    simp [ParseAPIResponse, hdec]
  refine ⟨hparse, ?_⟩
  by_cases hhost : host = ""
  · have hid : teamviewerid ≠ "" := by
      rcases hcrit with h | h
      · exact absurd hhost h
      · exact h
    simp [main, hkey, hid, hparse, hhost, FindDeviceWithPropertyValue, findLoop]
  · simp [main, hkey, hparse, hhost, FindDeviceWithPropertyValue, findLoop]

theorem main_decode_error_panics_witness :
    "key" ≠ "" ∧ ("" ≠ "" ∨ "100" ≠ "") ∧
    (fun _ => Except.error "invalid character") "not json" =
      (Except.error "invalid character" : Except String APIResponse) ∧
    ParseAPIResponse (fun _ => Except.error "invalid character") "not json" =
      ([], some "invalid character") ∧
    main (fun _ _ => (false, none)) (fun _ => Except.error "invalid character") "key" "" "100"
      (.body "not json") = .panic (.indexOutOfRange 0 0) :=
  ⟨by decide, by decide, rfl,
    main_decode_error_panics (fun _ _ => (false, none))
      (fun _ => Except.error "invalid character") "key" "" "100"
      "not json" "invalid character" (by decide) (by decide) rfl⟩

/-- C8 (where the code departs from the claim): in a search by identifier (no
hostname given) over a non-empty device list in which no device has the
identifier, `main` exits with code 2 and the line "CRITICAL - Device not found: "
followed by the empty hostname; the line is the same for every identifier. -/
theorem main_not_found_by_id (library : regexp.Library)
    (unmarshal : String → Except String APIResponse)
    (apiKey teamviewerid body : String) (response : APIResponse) (hkey : apiKey ≠ "")
    (hid : teamviewerid ≠ "") (hdec : unmarshal body = .ok response)
    (hne : response.Devices ≠ [])
    (hno : ∀ d ∈ response.Devices, TestID d teamviewerid = false) :
    main library unmarshal apiKey "" teamviewerid (.body body) =
      .exit 2 "CRITICAL - Device not found: \n" := by
  have hparse : ParseAPIResponse unmarshal body = (response.Devices, none) := by
    simp [ParseAPIResponse, hdec]
  obtain ⟨d, hfind⟩ := find_of_no_match response.Devices teamviewerid TestID hne hno
  simp [main, hkey, hid, hparse, hfind, errDeviceNotFound]

theorem main_not_found_by_id_witness :
    "key" ≠ "" ∧ "999" ≠ "" ∧
    main (fun _ _ => (false, none))
      (fun _ => Except.ok ⟨[deviceOf "r100" "5_host1" "Online"]⟩) "key" "" "999"
      (.body "inventory") = .exit 2 "CRITICAL - Device not found: \n" ∧
    ¬ Contains "CRITICAL - Device not found: \n" "999" :=
  ⟨by decide, by decide,
    main_not_found_by_id (fun _ _ => (false, none))
      (fun _ => Except.ok ⟨[deviceOf "r100" "5_host1" "Online"]⟩) "key" "999"
      "inventory" ⟨[deviceOf "r100" "5_host1" "Online"]⟩ (by decide) (by decide) rfl
      (by decide) (by decide),
    by decide⟩

end CheckTeamviewer
